import Mathlib

/-!
Verification of the `Trainer` binding shim (`bindings/python/cntk/trainer.py`).

The shim sanitizes arguments, resolves a default device, forwards the call to
the native trainer, and converts requested outputs back.  The shim's own logic
(device guard, output branch, output-map construction) is embedded directly
from the source.  The collaborators that live outside this file's source —
`sanitize_var_map` / `value_to_seq` (from `cntk.utils`) and the native
`cntk_py.Trainer` engine — are modelled from the specification and are marked
as such in their doc comments.
-/

/-- Identifier of a model input variable. -/
abbrev VariableId := String

/-- A batch of samples for one variable; each sample is abstracted to an
integer datum, so the sample count is the list length. -/
abbrev SequenceBatch := List Int

/-- A raw tensor value handed back by the native engine. -/
structure NativeValue where
  data : List Int
deriving DecidableEq, Repr

/-- Compute device selector; opaque, only equality-comparable. -/
inductive Device where
  | cpu
  | gpu (id : Nat)
deriving DecidableEq, Repr

/-- `DeviceDescriptor.use_default_device()`: the process default device. -/
def DeviceDescriptor.use_default_device : Device := Device.cpu

/-- A Python-level argument value: either `None` or an object carrying a
truthiness (Python's `bool(x)`) and a payload.  Needed because the shim
guards on `not device`, not `device is None`. -/
inductive PyVal (α : Type) where
  | pynone
  | obj (truthy : Bool) (val : α)
deriving DecidableEq, Repr

/-- Python truthiness of a `PyVal`. -/
def PyVal.isTruthy : PyVal α → Bool
  | .pynone => false
  | .obj t _ => t

/-- The shim's device guard: `if not device: device = use_default_device()`. -/
def resolveDevice : PyVal Device → Device
  | .obj true d => d
  | _ => DeviceDescriptor.use_default_device

/-- Python truthiness of the `outputs` parameter (`None` or an iterable):
`None` and an empty collection are falsy, a non-empty collection is truthy. -/
def outputsTruthy : Option (List VariableId) → Bool
  | none => false
  | some l => !l.isEmpty

/-- Key list of the Python dict comprehension over an iterable: first
occurrence of each key is kept, later duplicates are dropped. -/
def pyDedup : List VariableId → List VariableId
  | [] => []
  | v :: rest => v :: (pyDedup rest).filter (fun w => decide (w ≠ v))

/-- Error kinds surfaced by the shim and its collaborators. -/
inductive TrainErr where
  | shapeMismatch
  | lengthMismatch
  | deviceError
deriving DecidableEq, Repr

/-- The base (non-tuple) form of a minibatch: a named mapping or a positional
list aligned with the model's declared input order. -/
inductive MinibatchBase where
  | named (m : List (VariableId × SequenceBatch))
  | positional (l : List SequenceBatch)
deriving DecidableEq, Repr

/-- The `arguments` parameter: the base form, or the tuple form pairing the
base with per-sample sequence-boundary flags. -/
inductive MinibatchInput where
  | plain (b : MinibatchBase)
  | withFlags (b : MinibatchBase) (flags : List Bool)
deriving DecidableEq, Repr

/-- Canonical mapping from variables to their batches, with optional
sequence-boundary flags attached. -/
structure VarMap where
  entries : List (VariableId × SequenceBatch)
  seqStarts : Option (List Bool)
deriving DecidableEq, Repr

/-- Modelled from the spec: `normalize_input` (part of the missing
`cntk.utils.sanitize_var_map`) resolves positional or named input to the
canonical mapping form; fails with `ShapeMismatchError` if a list-form
input's length differs from the number of declared model inputs, or if a
named key does not match any declared input. -/
def normalize_input (modelInputs : List VariableId) :
    MinibatchBase → Except TrainErr (List (VariableId × SequenceBatch))
  | .positional l =>
      if l.length = modelInputs.length then
        .ok (modelInputs.zip l)
      else
        .error .shapeMismatch
  | .named m =>
      if m.all (fun kv => modelInputs.contains kv.1) then
        .ok m
      else
        .error .shapeMismatch

/-- Modelled from the spec: `attach_sequence_boundaries` (part of the missing
`cntk.utils.sanitize_var_map`) attaches per-sample boundary flags; fails with
`LengthMismatchError` if the boundary count differs from the sample count of
any variable. -/
def attach_sequence_boundaries (vm : VarMap) (flags : List Bool) :
    Except TrainErr VarMap :=
  if vm.entries.all (fun kv => kv.2.length = flags.length) then
    .ok { vm with seqStarts := some flags }
  else
    .error .lengthMismatch

/-- Modelled from the spec: `cntk.utils.sanitize_var_map` (missing from the
source fragment) normalizes the raw minibatch against the declared model
inputs and attaches boundary flags taken from the tuple form of `arguments`
or from the separate `seq_starts` parameter. -/
def sanitize_var_map (modelInputs : List VariableId) (raw : MinibatchInput)
    (seqStarts : Option (List Bool)) : Except TrainErr VarMap :=
  let parts : MinibatchBase × Option (List Bool) :=
    match raw with
    | .plain b => (b, seqStarts)
    | .withFlags b f => (b, some f)
  match normalize_input modelInputs parts.1 with
  | .error e => .error e
  | .ok entries =>
      match parts.2 with
      | none => .ok ⟨entries, none⟩
      | some f => attach_sequence_boundaries ⟨entries, none⟩ f

/-- A parameter learner: owns a subset of trainable parameters and internal
optimizer state; may be exhausted, after which updates are no-ops. -/
structure Learner where
  exhausted : Bool
  innerState : Int
  params : List Int
deriving DecidableEq, Repr

/-- Modelled from the spec: one learner update step.  An exhausted learner is
a no-op; an active learner mutates its parameters and internal state. -/
def Learner.update (l : Learner) (grad : Int) : Learner :=
  if l.exhausted then l
  else { l with params := l.params.map (fun p => p - grad),
                innerState := l.innerState + 1 }

/-- Modelled from the spec: `LearnerSet.apply` applies each learner's update
rule and returns `false` only if every learner reports exhaustion. -/
def learnerSetApply (ls : List Learner) (grad : Int) : List Learner × Bool :=
  (ls.map (fun l => l.update grad), ls.any (fun l => !l.exhausted))

/-- Rolling statistics of the last trained minibatch. -/
structure RollingStats where
  lossAvg : Int
  evalAvg : Int
  sampleCount : Nat
deriving DecidableEq, Repr

/-- The trainer state: declared model inputs, the learner set (which owns the
trainable parameters), rolling statistics, and the device the native engine
last computed on. -/
structure Trainer where
  modelInputs : List VariableId
  learners : List Learner
  stats : RollingStats
  lastDevice : Device
deriving DecidableEq, Repr

/-- All trainable parameters, in learner order. -/
def paramsOf (t : Trainer) : List Int :=
  (t.learners.map Learner.params).flatten

/-- Per-input sample count of a normalized minibatch. -/
def batchSampleCount (vm : VarMap) : Nat :=
  match vm.entries with
  | [] => 0
  | e :: _ => e.2.length

/-- Total of the input data of a normalized minibatch. -/
def inputTotal (vm : VarMap) : Int :=
  (vm.entries.map (fun kv => kv.2.sum)).sum

/-- Modelled from the spec: the forward pass of the loss function, a
deterministic function of the trainable parameters and the minibatch. -/
def forwardLoss (params : List Int) (vm : VarMap) : Int :=
  params.sum + inputTotal vm

/-- Modelled from the spec: the forward pass of the evaluation function, a
deterministic function of the trainable parameters and the minibatch. -/
def forwardEval (params : List Int) (vm : VarMap) : Int :=
  2 * params.sum + inputTotal vm

/-- Modelled from the spec: one native training step — forward, backward,
`LearnerSet.apply`, rolling-stats update — returning the stepped trainer and
the `continuing` flag. -/
def nativeTrainStep (t : Trainer) (vm : VarMap) (dev : Device) :
    Trainer × Bool :=
  let grad := forwardLoss (paramsOf t) vm
  let n := batchSampleCount vm
  let applied := learnerSetApply t.learners grad
  ({ t with
      learners := applied.1,
      stats := { lossAvg := grad / (n : Int),
                 evalAvg := forwardEval (paramsOf t) vm / (n : Int),
                 sampleCount := n },
      lastDevice := dev },
   applied.2)

/-- Modelled from the spec: the native forward-only evaluation, returning the
per-sample average of the evaluation criterion. -/
def nativeTest (t : Trainer) (vm : VarMap) : Int :=
  forwardEval (paramsOf t) vm / (batchSampleCount vm : Int)

/-- Modelled from the spec: the native engine's materialized tensor for one
requested output variable during a training step. -/
def engineOutput (t : Trainer) (vm : VarMap) (v : VariableId) : NativeValue :=
  ⟨forwardLoss (paramsOf t) vm :: (vm.entries.lookup v).getD []⟩

/-- Modelled from the spec: `cntk.utils.value_to_seq` converts a native
tensor value back into a host-side sequence. -/
def value_to_seq (nv : NativeValue) : List Int :=
  nv.data

/-- Return value of `train_minibatch`: a bare `continuing` flag, or the flag
paired with the converted output map. -/
inductive TrainResult where
  | flag (updated : Bool)
  | pair (updated : Bool) (outputsMap : List (VariableId × List Int))
deriving DecidableEq, Repr

/-- `Trainer.train_minibatch` as written in the source: resolve a falsy
`device` to the default device, sanitize `arguments` against the model's
declared inputs, then either call the native step with an output map built
by dict comprehension over `outputs` and convert each value, or call the
native step plain.  The first component is the trainer after the call; the
second is the raised error or the returned value. -/
def Trainer.train_minibatch (t : Trainer) (arguments : MinibatchInput)
    (outputs : Option (List VariableId)) (device : PyVal Device) :
    Trainer × Except TrainErr TrainResult :=
  let dev := resolveDevice device
  match sanitize_var_map t.modelInputs arguments none with
  | .error e => (t, .error e)
  | .ok vm =>
      if outputsTruthy outputs then
        let stepped := nativeTrainStep t vm dev
        let outputMap := (pyDedup (outputs.getD [])).map
          (fun v => (v, value_to_seq (engineOutput t vm v)))
        (stepped.1, .ok (.pair stepped.2 outputMap))
      else
        let stepped := nativeTrainStep t vm dev
        (stepped.1, .ok (.flag stepped.2))

/-- `Trainer.test_minibatch` as written in the source: resolve a falsy
`device` to the default device, sanitize `arguments` (with `seq_starts`)
against the model's declared inputs, and run the native forward-only
evaluation, which mutates no trainable state. -/
def Trainer.test_minibatch (t : Trainer) (arguments : MinibatchInput)
    (seq_starts : Option (List Bool)) (device : PyVal Device) :
    Trainer × Except TrainErr Int :=
  let dev := resolveDevice device
  match sanitize_var_map t.modelInputs arguments seq_starts with
  | .error e => (t, .error e)
  | .ok vm => ({ t with lastDevice := dev }, .ok (nativeTest t vm))

/-- A checkpoint: snapshot of the model parameter values and every learner's
internal state (the parameters live inside their owning learners). -/
structure Checkpoint where
  learnerSnaps : List Learner
deriving DecidableEq, Repr

/-- Modelled from the spec: `save_checkpoint` snapshots parameters and
learner state. -/
def Trainer.save_checkpoint (t : Trainer) : Checkpoint :=
  ⟨t.learners⟩

/-- Modelled from the spec: `restore_from_checkpoint` reconstructs the
parameters and learner internal state exactly from the snapshot. -/
def Trainer.restore_from_checkpoint (t : Trainer) (c : Checkpoint) : Trainer :=
  { t with learners := c.learnerSnaps }

/-- Accessor reading the last-minibatch average loss from the rolling stats. -/
def Trainer.previous_minibatch_loss_average (t : Trainer) : Int :=
  t.stats.lossAvg

/-- Accessor reading the last-minibatch average evaluation criterion. -/
def Trainer.previous_minibatch_evaluation_average (t : Trainer) : Int :=
  t.stats.evalAvg

/-- Accessor reading the last-minibatch sample count. -/
def Trainer.previous_minibatch_sample_count (t : Trainer) : Nat :=
  t.stats.sampleCount

/-! ## Helper lemmas -/

/-- Membership is preserved by the dict-comprehension key dedup. -/
theorem mem_pyDedup {v : VariableId} {l : List VariableId} :
    v ∈ pyDedup l ↔ v ∈ l := by
  induction l with
  | nil => simp [pyDedup]
  | cons a rest ih =>
      by_cases hva : v = a
      · subst hva; simp [pyDedup]
      · simp [pyDedup, List.mem_filter, hva, ih]

/-- The dict-comprehension key list has no duplicate keys. -/
theorem pyDedup_nodup (l : List VariableId) : (pyDedup l).Nodup := by
  induction l with
  | nil => simp [pyDedup]
  | cons a rest ih =>
      simp only [pyDedup, List.nodup_cons]
      constructor
      · intro hmem
        have := (List.mem_filter.mp hmem).2
        simp at this
      · exact ih.filter _

/-! ## Theorems for the claims -/

/-- Claim C8: a call to `train_minibatch` or `test_minibatch` with
`device = None` resolves the device to `DeviceDescriptor.use_default_device()`
before forwarding to the native trainer: it behaves exactly as the call with
the default device passed explicitly, and on a successful `test_minibatch`
the native computation is recorded on the default device. -/
theorem train_test_device_defaults_on_none :
    (∀ (t : Trainer) (args : MinibatchInput) (outs : Option (List VariableId)),
      Trainer.train_minibatch t args outs PyVal.pynone
        = Trainer.train_minibatch t args outs
            (PyVal.obj true DeviceDescriptor.use_default_device)) ∧
    (∀ (t : Trainer) (args : MinibatchInput) (ss : Option (List Bool)),
      Trainer.test_minibatch t args ss PyVal.pynone
        = Trainer.test_minibatch t args ss
            (PyVal.obj true DeviceDescriptor.use_default_device)) ∧
    (∀ (t : Trainer) (args : MinibatchInput) (ss : Option (List Bool))
        (vm : VarMap),
      sanitize_var_map t.modelInputs args ss = .ok vm →
      (Trainer.test_minibatch t args ss PyVal.pynone).1.lastDevice
        = DeviceDescriptor.use_default_device) := by
  refine ⟨fun t args outs => rfl, fun t args ss => rfl, fun t args ss vm h => ?_⟩
  simp [Trainer.test_minibatch, h, resolveDevice]

/-- Claim C8 witness: with a concrete trainer and minibatch, sanitization
succeeds and the `None`-device test call records the default device. -/
theorem train_test_device_defaults_on_none_witness :
    (Trainer.test_minibatch ⟨["x"], [], ⟨0, 0, 0⟩, Device.gpu 3⟩
        (.plain (.named [("x", [1, 2])])) none PyVal.pynone).1.lastDevice
      = DeviceDescriptor.use_default_device :=
  train_test_device_defaults_on_none.2.2
    ⟨["x"], [], ⟨0, 0, 0⟩, Device.gpu 3⟩
    (.plain (.named [("x", [1, 2])])) none ⟨[("x", [1, 2])], none⟩ rfl

/-- Claim C10: a falsy but non-`None` `device` argument is discarded and
replaced by the default device, because the guard tests `not device` rather
than `device is None`: the call equals the call with the default device, and
the guard itself maps any falsy device object to the default device. -/
theorem train_test_device_falsy_discarded :
    (∀ (d : Device), resolveDevice (PyVal.obj false d)
        = DeviceDescriptor.use_default_device) ∧
    (∀ (t : Trainer) (args : MinibatchInput) (outs : Option (List VariableId))
        (d : Device),
      Trainer.train_minibatch t args outs (PyVal.obj false d)
        = Trainer.train_minibatch t args outs
            (PyVal.obj true DeviceDescriptor.use_default_device)) ∧
    (∀ (t : Trainer) (args : MinibatchInput) (ss : Option (List Bool))
        (d : Device),
      Trainer.test_minibatch t args ss (PyVal.obj false d)
        = Trainer.test_minibatch t args ss
            (PyVal.obj true DeviceDescriptor.use_default_device)) :=
  ⟨fun _d => rfl, fun _t _args _outs _d => rfl, fun _t _args _ss _d => rfl⟩

/-- Claim C9: an empty (falsy) `outputs` collection behaves exactly as
`outputs = None`: the whole call, return value included, is identical, so a
bare boolean is returned rather than a pair with an empty map. -/
theorem train_minibatch_empty_outputs_as_none
    (t : Trainer) (args : MinibatchInput) (dev : PyVal Device) :
    Trainer.train_minibatch t args (some []) dev
      = Trainer.train_minibatch t args none dev := by
  cases hs : sanitize_var_map t.modelInputs args none with
  | error e => simp [Trainer.train_minibatch, hs]
  | ok vm => simp [Trainer.train_minibatch, hs, outputsTruthy]

/-- Claim C7: `test_minibatch` never mutates the rolling training stats nor
the learners: `previous_minibatch_sample_count` (and the loss/eval averages)
read after the call equal their values before it, whether the call succeeds
or raises. -/
theorem test_minibatch_preserves_stats
    (t : Trainer) (args : MinibatchInput) (ss : Option (List Bool))
    (dev : PyVal Device) :
    (Trainer.test_minibatch t args ss dev).1.stats = t.stats ∧
    (Trainer.test_minibatch t args ss dev).1.learners = t.learners ∧
    Trainer.previous_minibatch_sample_count
        (Trainer.test_minibatch t args ss dev).1
      = Trainer.previous_minibatch_sample_count t ∧
    Trainer.previous_minibatch_loss_average
        (Trainer.test_minibatch t args ss dev).1
      = Trainer.previous_minibatch_loss_average t ∧
    Trainer.previous_minibatch_evaluation_average
        (Trainer.test_minibatch t args ss dev).1
      = Trainer.previous_minibatch_evaluation_average t := by
  cases hs : sanitize_var_map t.modelInputs args ss with
  | error e =>
      simp [Trainer.test_minibatch, hs, Trainer.previous_minibatch_sample_count,
        Trainer.previous_minibatch_loss_average,
        Trainer.previous_minibatch_evaluation_average]
  | ok vm =>
      simp [Trainer.test_minibatch, hs, Trainer.previous_minibatch_sample_count,
        Trainer.previous_minibatch_loss_average,
        Trainer.previous_minibatch_evaluation_average]

/-- Claim C1: on a sanitizable minibatch, `train_minibatch` with
`outputs = None` returns a single boolean flag, and with a non-empty
requested output list returns a pair whose map's key set equals exactly the
requested set, each key bound to the converted native output value. -/
theorem train_minibatch_output_shape
    (t : Trainer) (args : MinibatchInput) (dev : PyVal Device) (vm : VarMap)
    (hok : sanitize_var_map t.modelInputs args none = .ok vm) :
    (∃ u : Bool, (Trainer.train_minibatch t args none dev).2 = .ok (.flag u)) ∧
    (∀ l : List VariableId, l ≠ [] →
      ∃ (u : Bool) (m : List (VariableId × List Int)),
        (Trainer.train_minibatch t args (some l) dev).2 = .ok (.pair u m) ∧
        (∀ v, v ∈ m.map Prod.fst ↔ v ∈ l) ∧
        (∀ v seq, (v, seq) ∈ m → seq = value_to_seq (engineOutput t vm v))) := by
  constructor
  · exact ⟨(nativeTrainStep t vm (resolveDevice dev)).2,
      by simp [Trainer.train_minibatch, hok, outputsTruthy]⟩
  · intro l hl
    have hne : l.isEmpty = false := by
      cases l with
      | nil => exact absurd rfl hl
      | cons a r => rfl
    refine ⟨(nativeTrainStep t vm (resolveDevice dev)).2,
      (pyDedup l).map (fun v => (v, value_to_seq (engineOutput t vm v))),
      ?_, ?_, ?_⟩
    · simp [Trainer.train_minibatch, hok, outputsTruthy, hne]
    · intro v
      simp [List.map_map, Function.comp, mem_pyDedup]
    · intro v seq hmem
      rcases List.mem_map.mp hmem with ⟨w, _hw, hEq⟩
      cases hEq
      rfl

/-- Claim C1 witness: with a concrete one-input model and minibatch, the
`outputs = None` call returns a bare flag. -/
theorem train_minibatch_output_shape_witness :
    ∃ u : Bool,
      (Trainer.train_minibatch ⟨["x"], [], ⟨0, 0, 0⟩, Device.cpu⟩
        (.plain (.named [("x", [1, 2])])) none PyVal.pynone).2
        = .ok (.flag u) :=
  (train_minibatch_output_shape ⟨["x"], [], ⟨0, 0, 0⟩, Device.cpu⟩
    (.plain (.named [("x", [1, 2])])) PyVal.pynone
    ⟨[("x", [1, 2])], none⟩ rfl).1

/-- Claim C2: a positional minibatch whose length differs from the number of
declared model inputs, or a named key matching no declared input, makes
`sanitize_var_map` — and hence `train_minibatch` and `test_minibatch` —
raise `ShapeMismatchError`. -/
theorem sanitize_shape_mismatch :
    (∀ (inputs : List VariableId) (l : List SequenceBatch)
        (ss : Option (List Bool)),
      l.length ≠ inputs.length →
      sanitize_var_map inputs (.plain (.positional l)) ss
        = .error .shapeMismatch) ∧
    (∀ (inputs : List VariableId) (m : List (VariableId × SequenceBatch))
        (ss : Option (List Bool)) (k : VariableId) (b : SequenceBatch),
      (k, b) ∈ m → inputs.contains k = false →
      sanitize_var_map inputs (.plain (.named m)) ss
        = .error .shapeMismatch) ∧
    (∀ (t : Trainer) (l : List SequenceBatch)
        (outs : Option (List VariableId)) (dev : PyVal Device),
      l.length ≠ t.modelInputs.length →
      Trainer.train_minibatch t (.plain (.positional l)) outs dev
        = (t, .error .shapeMismatch)) ∧
    (∀ (t : Trainer) (l : List SequenceBatch) (ss : Option (List Bool))
        (dev : PyVal Device),
      l.length ≠ t.modelInputs.length →
      Trainer.test_minibatch t (.plain (.positional l)) ss dev
        = (t, .error .shapeMismatch)) := by
  have hpos : ∀ (inputs : List VariableId) (l : List SequenceBatch)
      (ss : Option (List Bool)), l.length ≠ inputs.length →
      sanitize_var_map inputs (.plain (.positional l)) ss
        = .error .shapeMismatch := by
    intro inputs l ss h
    simp [sanitize_var_map, normalize_input, h]
  refine ⟨hpos, ?_, ?_, ?_⟩
  · intro inputs m ss k b hmem hk
    have hall : (m.all (fun kv => inputs.contains kv.1)) = false := by
      cases hA : m.all (fun kv => inputs.contains kv.1) with
      | false => rfl
      | true =>
          have := List.all_eq_true.mp hA (k, b) hmem
          simp only at this
          rw [hk] at this
          exact absurd this (by simp)
    have hnorm : normalize_input inputs (MinibatchBase.named m)
        = .error .shapeMismatch := by
      simp only [normalize_input, hall]
      simp
    simp [sanitize_var_map, hnorm]
  · intro t l outs dev h
    simp [Trainer.train_minibatch, hpos t.modelInputs l none h]
  · intro t l ss dev h
    simp [Trainer.test_minibatch, hpos t.modelInputs l ss h]

/-- Claim C2 witness: a one-input model given an empty positional list makes
`train_minibatch` raise `ShapeMismatchError`. -/
theorem sanitize_shape_mismatch_witness :
    Trainer.train_minibatch ⟨["x"], [], ⟨0, 0, 0⟩, Device.cpu⟩
        (.plain (.positional [])) none PyVal.pynone
      = (⟨["x"], [], ⟨0, 0, 0⟩, Device.cpu⟩, .error .shapeMismatch) :=
  sanitize_shape_mismatch.2.2.1 ⟨["x"], [], ⟨0, 0, 0⟩, Device.cpu⟩
    [] none PyVal.pynone (by decide)

/-- Claim C3: a boundary-flag list whose length differs from the sample count
of some variable makes `attach_sequence_boundaries` raise
`LengthMismatchError`, whether the flags are attached via `test_minibatch`'s
`seq_starts` argument or via the tuple form of `arguments`. -/
theorem boundary_length_mismatch :
    (∀ (vm : VarMap) (flags : List Bool),
      (∃ kv ∈ vm.entries, kv.2.length ≠ flags.length) →
      attach_sequence_boundaries vm flags = .error .lengthMismatch) ∧
    (∀ (t : Trainer) (base : MinibatchBase) (flags : List Bool)
        (dev : PyVal Device) (entries : List (VariableId × SequenceBatch)),
      normalize_input t.modelInputs base = .ok entries →
      (∃ kv ∈ entries, kv.2.length ≠ flags.length) →
      Trainer.test_minibatch t (.plain base) (some flags) dev
        = (t, .error .lengthMismatch)) ∧
    (∀ (t : Trainer) (base : MinibatchBase) (flags : List Bool)
        (outs : Option (List VariableId)) (dev : PyVal Device)
        (entries : List (VariableId × SequenceBatch)),
      normalize_input t.modelInputs base = .ok entries →
      (∃ kv ∈ entries, kv.2.length ≠ flags.length) →
      Trainer.train_minibatch t (.withFlags base flags) outs dev
        = (t, .error .lengthMismatch)) := by
  have hatt : ∀ (vm : VarMap) (flags : List Bool),
      (∃ kv ∈ vm.entries, kv.2.length ≠ flags.length) →
      attach_sequence_boundaries vm flags = .error .lengthMismatch := by
    intro vm flags ⟨kv, hkv, hne⟩
    have hall : (vm.entries.all (fun kv => kv.2.length = flags.length))
        = false := by
      cases hA : vm.entries.all (fun kv => kv.2.length = flags.length) with
      | false => rfl
      | true =>
          have h2 := List.all_eq_true.mp hA kv hkv
          exact absurd (of_decide_eq_true h2) hne
    simp [attach_sequence_boundaries, hall]
  refine ⟨hatt, ?_, ?_⟩
  · intro t base flags dev entries hnorm hex
    simp [Trainer.test_minibatch, sanitize_var_map, hnorm,
      hatt ⟨entries, none⟩ flags hex]
  · intro t base flags outs dev entries hnorm hex
    simp [Trainer.train_minibatch, sanitize_var_map, hnorm,
      hatt ⟨entries, none⟩ flags hex]

/-- Claim C3 witness: two samples for input `x` but a single boundary flag
makes `test_minibatch` raise `LengthMismatchError`. -/
theorem boundary_length_mismatch_witness :
    Trainer.test_minibatch ⟨["x"], [], ⟨0, 0, 0⟩, Device.cpu⟩
        (.plain (.named [("x", [1, 2])])) (some [true]) PyVal.pynone
      = (⟨["x"], [], ⟨0, 0, 0⟩, Device.cpu⟩, .error .lengthMismatch) :=
  boundary_length_mismatch.2.1 ⟨["x"], [], ⟨0, 0, 0⟩, Device.cpu⟩
    (.named [("x", [1, 2])]) [true] PyVal.pynone [("x", [1, 2])] rfl
    ⟨("x", [1, 2]), by decide, by decide⟩

/-- Claim C4: `LearnerSet.apply` returns `false` if and only if every learner
reports exhaustion — in particular with one exhausted and one active learner
it returns `true` — and this flag is exactly the boolean `train_minibatch`
returns on a successful step. -/
theorem learner_set_apply_continuing :
    (∀ (ls : List Learner) (g : Int),
      (learnerSetApply ls g).2 = false ↔ ∀ l ∈ ls, l.exhausted = true) ∧
    (∀ (l1 l2 : Learner) (g : Int),
      l1.exhausted = true → l2.exhausted = false →
      (learnerSetApply [l1, l2] g).2 = true) ∧
    (∀ (t : Trainer) (args : MinibatchInput) (dev : PyVal Device)
        (vm : VarMap),
      sanitize_var_map t.modelInputs args none = .ok vm →
      (Trainer.train_minibatch t args none dev).2
        = .ok (.flag
            (learnerSetApply t.learners (forwardLoss (paramsOf t) vm)).2)) := by
  refine ⟨?_, ?_, ?_⟩
  · intro ls g
    simp [learnerSetApply]
  · intro l1 l2 g h1 h2
    simp [learnerSetApply, h2]
  · intro t args dev vm hok
    simp [Trainer.train_minibatch, hok, outputsTruthy, nativeTrainStep]

/-- Claim C4 witness: a set of one exhausted and one active learner still
returns `true` from `apply`. -/
theorem learner_set_apply_continuing_witness :
    (learnerSetApply [⟨true, 0, [5]⟩, ⟨false, 0, [7]⟩] 3).2 = true :=
  learner_set_apply_continuing.2.1 ⟨true, 0, [5]⟩ ⟨false, 0, [7]⟩ 3 rfl rfl

/-- Claim C5: `save_checkpoint` on a trainer followed by
`restore_from_checkpoint` on a fresh trainer with the same declared model
inputs reproduces identical `previous_minibatch_loss_average`,
`previous_minibatch_evaluation_average` and `previous_minibatch_sample_count`
values after a subsequent identical minibatch (round-trip law). -/
theorem checkpoint_roundtrip_stats
    (s c : Trainer) (args : MinibatchInput) (outs : Option (List VariableId))
    (dev : PyVal Device) (vm : VarMap)
    (hm : c.modelInputs = s.modelInputs)
    (hok : sanitize_var_map s.modelInputs args none = .ok vm) :
    Trainer.previous_minibatch_loss_average
        (Trainer.train_minibatch s args outs dev).1
      = Trainer.previous_minibatch_loss_average
          (Trainer.train_minibatch
            (Trainer.restore_from_checkpoint c (Trainer.save_checkpoint s))
            args outs dev).1 ∧
    Trainer.previous_minibatch_evaluation_average
        (Trainer.train_minibatch s args outs dev).1
      = Trainer.previous_minibatch_evaluation_average
          (Trainer.train_minibatch
            (Trainer.restore_from_checkpoint c (Trainer.save_checkpoint s))
            args outs dev).1 ∧
    Trainer.previous_minibatch_sample_count
        (Trainer.train_minibatch s args outs dev).1
      = Trainer.previous_minibatch_sample_count
          (Trainer.train_minibatch
            (Trainer.restore_from_checkpoint c (Trainer.save_checkpoint s))
            args outs dev).1 := by
  have hparams : paramsOf (Trainer.restore_from_checkpoint c
      (Trainer.save_checkpoint s)) = paramsOf s := by
    simp [paramsOf, Trainer.restore_from_checkpoint, Trainer.save_checkpoint]
  have hok2 : sanitize_var_map
      (Trainer.restore_from_checkpoint c (Trainer.save_checkpoint s)).modelInputs
      args none = .ok vm := by
    simp only [Trainer.restore_from_checkpoint, Trainer.save_checkpoint]
    rw [hm]
    exact hok
  by_cases ho : outputsTruthy outs = true
  · simp [Trainer.train_minibatch, hok, hok2, ho, nativeTrainStep, hparams,
      Trainer.previous_minibatch_loss_average,
      Trainer.previous_minibatch_evaluation_average,
      Trainer.previous_minibatch_sample_count]
  · simp [Trainer.train_minibatch, hok, hok2, ho, nativeTrainStep, hparams,
      Trainer.previous_minibatch_loss_average,
      Trainer.previous_minibatch_evaluation_average,
      Trainer.previous_minibatch_sample_count]

/-- Claim C5 witness: a concrete trained trainer checkpointed into a fresh
trainer yields the same rolling stats after the same next minibatch. -/
theorem checkpoint_roundtrip_stats_witness :
    Trainer.previous_minibatch_loss_average
        (Trainer.train_minibatch ⟨["x"], [⟨false, 4, [9]⟩], ⟨7, 8, 2⟩, Device.cpu⟩
          (.plain (.named [("x", [1, 2])])) none PyVal.pynone).1
      = Trainer.previous_minibatch_loss_average
          (Trainer.train_minibatch
            (Trainer.restore_from_checkpoint
              ⟨["x"], [⟨false, 0, [0]⟩], ⟨0, 0, 0⟩, Device.cpu⟩
              (Trainer.save_checkpoint
                ⟨["x"], [⟨false, 4, [9]⟩], ⟨7, 8, 2⟩, Device.cpu⟩))
            (.plain (.named [("x", [1, 2])])) none PyVal.pynone).1 :=
  (checkpoint_roundtrip_stats ⟨["x"], [⟨false, 4, [9]⟩], ⟨7, 8, 2⟩, Device.cpu⟩
    ⟨["x"], [⟨false, 0, [0]⟩], ⟨0, 0, 0⟩, Device.cpu⟩
    (.plain (.named [("x", [1, 2])])) none PyVal.pynone
    ⟨[("x", [1, 2])], none⟩ rfl rfl).1

/-- Claim C6: a `train_minibatch` call that raises an error leaves the
trainer — rolling stats and learner state included — exactly as it was
before the call: no statistic changes and no learner update is partially
applied. -/
theorem train_minibatch_atomic_on_error
    (t : Trainer) (args : MinibatchInput) (outs : Option (List VariableId))
    (dev : PyVal Device) (e : TrainErr)
    (h : (Trainer.train_minibatch t args outs dev).2 = .error e) :
    (Trainer.train_minibatch t args outs dev).1 = t ∧
    (Trainer.train_minibatch t args outs dev).1.stats = t.stats ∧
    (Trainer.train_minibatch t args outs dev).1.learners = t.learners ∧
    Trainer.previous_minibatch_loss_average
        (Trainer.train_minibatch t args outs dev).1
      = Trainer.previous_minibatch_loss_average t ∧
    Trainer.previous_minibatch_evaluation_average
        (Trainer.train_minibatch t args outs dev).1
      = Trainer.previous_minibatch_evaluation_average t ∧
    Trainer.previous_minibatch_sample_count
        (Trainer.train_minibatch t args outs dev).1
      = Trainer.previous_minibatch_sample_count t := by
  cases hs : sanitize_var_map t.modelInputs args none with
  | error e2 =>
      simp [Trainer.train_minibatch, hs,
        Trainer.previous_minibatch_loss_average,
        Trainer.previous_minibatch_evaluation_average,
        Trainer.previous_minibatch_sample_count]
  | ok vm =>
      exfalso
      by_cases ho : outputsTruthy outs = true <;>
        simp [Trainer.train_minibatch, hs, ho] at h

/-- Claim C6 witness: a concrete failing call (wrong positional arity) leaves
the concrete trainer unchanged. -/
theorem train_minibatch_atomic_on_error_witness :
    (Trainer.train_minibatch ⟨["x"], [⟨false, 0, [3]⟩], ⟨1, 2, 5⟩, Device.cpu⟩
        (.plain (.positional [])) none PyVal.pynone).1
      = ⟨["x"], [⟨false, 0, [3]⟩], ⟨1, 2, 5⟩, Device.cpu⟩ :=
  (train_minibatch_atomic_on_error
    ⟨["x"], [⟨false, 0, [3]⟩], ⟨1, 2, 5⟩, Device.cpu⟩
    (.plain (.positional [])) none PyVal.pynone .shapeMismatch rfl).1
